import Mathlib

/-!
Verification development for the `slurm-ops-manager` library.

The Python sources under `slurm_ops_manager/` and `slurm_install_manager/`
are shallowly embedded here:

* Python `str` values are Lean `String`s; where the code processes the
  characters of a string (splitting on commas, stripping, lowercasing) we
  work on the underlying `List Char`.
* Python `bytes` values are `List Nat` with every element `< 256`.
* Python dicts are association lists `List (String × String)` looked up
  with `pyLookup` (first match; dict keys are unique in the source).
* Filesystem state is a map from path to file record (content and mode);
  subprocess and systemd effects are recorded as explicit traces.
* A Python function that may raise is modelled with an explicit error
  component (`Option PyExc` / `Except`), produced before any effect that
  the raise would have prevented.
-/

/-! ## Base64 (`base64.b64encode` / `base64.b64decode`)

`SlurmOpsManagerBase.write_munge_key` base64-decodes its string argument and
writes the raw bytes; `get_munge_key` reads the bytes back and base64-encodes
them.  The RFC 4648 standard alphabet with `=` padding is embedded below;
`b64decodeChars` is the inverse on well-formed (canonically padded) input,
which is the behaviour of `base64.b64decode` on every output of
`base64.b64encode`. -/

def b64Alphabet : List Char :=
  ['A', 'B', 'C', 'D', 'E', 'F', 'G', 'H', 'I', 'J', 'K', 'L', 'M',
   'N', 'O', 'P', 'Q', 'R', 'S', 'T', 'U', 'V', 'W', 'X', 'Y', 'Z',
   'a', 'b', 'c', 'd', 'e', 'f', 'g', 'h', 'i', 'j', 'k', 'l', 'm',
   'n', 'o', 'p', 'q', 'r', 's', 't', 'u', 'v', 'w', 'x', 'y', 'z',
   '0', '1', '2', '3', '4', '5', '6', '7', '8', '9', '+', '/']

/-- The alphabet character for a six-bit group. -/
def charOfSextet (n : Nat) : Char := b64Alphabet.getD n '='

/-- Scan the alphabet for a character, returning its index. -/
def findIdxFrom (c : Char) : List Char → Nat → Option Nat
  | [], _ => none
  | d :: ds, i => if d = c then some i else findIdxFrom c ds (i + 1)

/-- The six-bit value of an alphabet character, `none` off the alphabet. -/
def sextetOfChar (c : Char) : Option Nat := findIdxFrom c b64Alphabet 0

/-- Base64-encode a byte list, three bytes to four characters, RFC 4648
padding on the final partial group. -/
def b64encodeChars : List Nat → List Char
  | [] => []
  | [a] =>
    [charOfSextet (a / 4), charOfSextet (a % 4 * 16), '=', '=']
  | [a, b] =>
    [charOfSextet (a / 4), charOfSextet (a % 4 * 16 + b / 16),
     charOfSextet (b % 16 * 4), '=']
  | a :: b :: c :: rest =>
    charOfSextet (a / 4) :: charOfSextet (a % 4 * 16 + b / 16) ::
    charOfSextet (b % 16 * 4 + c / 64) :: charOfSextet (c % 64) ::
    b64encodeChars rest

/-- Base64-decode a character list, four characters to three bytes, the
final group possibly `=`-padded.  `none` on input that is not a
well-formed encoding. -/
def b64decodeChars : List Char → Option (List Nat)
  | [] => some []
  | c0 :: c1 :: c2 :: c3 :: rest =>
    match sextetOfChar c0, sextetOfChar c1 with
    | some s0, some s1 =>
      if c2 = '=' then
        if c3 = '=' ∧ rest = [] then some [s0 * 4 + s1 / 16] else none
      else
        match sextetOfChar c2 with
        | some s2 =>
          if c3 = '=' then
            if rest = [] then
              some [s0 * 4 + s1 / 16, s1 % 16 * 16 + s2 / 4]
            else none
          else
            match sextetOfChar c3 with
            | some s3 =>
              match b64decodeChars rest with
              | some bs =>
                some ((s0 * 4 + s1 / 16) :: (s1 % 16 * 16 + s2 / 4) ::
                      (s2 % 4 * 64 + s3) :: bs)
              | none => none
            | none => none
        | none => none
    | _, _ => none
  | _ => none

/-- `base64.b64encode(..).decode()`: bytes to text. -/
def b64encode (bs : List Nat) : String := (b64encodeChars bs).asString

/-- `base64.b64decode(s.encode())`: text to bytes. -/
def b64decode (s : String) : Option (List Nat) := b64decodeChars s.toList

theorem sextetOfChar_charOfSextet : ∀ n < 64, sextetOfChar (charOfSextet n) = some n := by
  decide

theorem charOfSextet_ne_pad : ∀ n < 64, charOfSextet n ≠ '=' := by
  decide

theorem b64decodeChars_b64encodeChars :
    ∀ bs : List Nat, (∀ x ∈ bs, x < 256) →
      b64decodeChars (b64encodeChars bs) = some bs
  | [] => fun _ => rfl
  | [a] => by
    intro h
    have ha : a < 256 := h a (by simp)
    have h0 : a / 4 < 64 := by omega
    have h1 : a % 4 * 16 < 64 := by omega
    simp only [b64encodeChars, b64decodeChars,
      sextetOfChar_charOfSextet _ h0, sextetOfChar_charOfSextet _ h1]
    simp only [if_pos rfl, and_self, ite_true]
    have : (a / 4) * 4 + (a % 4 * 16) / 16 = a := by omega
    rw [this]
  | [a, b] => by
    intro h
    have ha : a < 256 := h a (by simp)
    have hb : b < 256 := h b (by simp)
    have h0 : a / 4 < 64 := by omega
    have h1 : a % 4 * 16 + b / 16 < 64 := by omega
    have h2 : b % 16 * 4 < 64 := by omega
    simp only [b64encodeChars, b64decodeChars,
      sextetOfChar_charOfSextet _ h0, sextetOfChar_charOfSextet _ h1,
      sextetOfChar_charOfSextet _ h2]
    rw [if_neg (charOfSextet_ne_pad _ h2)]
    simp only [if_pos rfl, ite_true]
    have e0 : (a / 4) * 4 + (a % 4 * 16 + b / 16) / 16 = a := by omega
    have e1 : (a % 4 * 16 + b / 16) % 16 * 16 + (b % 16 * 4) / 4 = b := by omega
    rw [e0, e1]
  | a :: b :: c :: rest => by
    intro h
    have ha : a < 256 := h a (by simp)
    have hb : b < 256 := h b (by simp)
    have hc : c < 256 := h c (by simp)
    have h0 : a / 4 < 64 := by omega
    have h1 : a % 4 * 16 + b / 16 < 64 := by omega
    have h2 : b % 16 * 4 + c / 64 < 64 := by omega
    have h3 : c % 64 < 64 := by omega
    have ih : b64decodeChars (b64encodeChars rest) = some rest :=
      b64decodeChars_b64encodeChars rest
        (fun x hx => h x (by simp [hx]))
    simp only [b64encodeChars, b64decodeChars,
      sextetOfChar_charOfSextet _ h0, sextetOfChar_charOfSextet _ h1,
      sextetOfChar_charOfSextet _ h2, sextetOfChar_charOfSextet _ h3]
    rw [if_neg (charOfSextet_ne_pad _ h2), if_neg (charOfSextet_ne_pad _ h3)]
    show (match b64decodeChars (b64encodeChars rest) with
      | some bs =>
        some (((a / 4) * 4 + (a % 4 * 16 + b / 16) / 16) ::
              ((a % 4 * 16 + b / 16) % 16 * 16 + (b % 16 * 4 + c / 64) / 4) ::
              ((b % 16 * 4 + c / 64) % 4 * 64 + c % 64) :: bs)
      | none => none) = some (a :: b :: c :: rest)
    rw [ih]
    have e0 : (a / 4) * 4 + (a % 4 * 16 + b / 16) / 16 = a := by omega
    have e1 : (a % 4 * 16 + b / 16) % 16 * 16 + (b % 16 * 4 + c / 64) / 4 = b := by omega
    have e2 : (b % 16 * 4 + c / 64) % 4 * 64 + c % 64 = c := by omega
    rw [e0, e1, e2]

/-- `SlurmOpsManagerBase.write_munge_key`: base64-decode the string and
write the bytes to `_munge_key_path`.  The value returned is the byte
content of the key file after a successful write. -/
def write_munge_key (munge_key : String) : Option (List Nat) :=
  b64decode munge_key

/-- `SlurmOpsManagerBase.get_munge_key`: read the key file bytes and
base64-encode them to a string. -/
def get_munge_key (stored : List Nat) : String :=
  b64encode stored

/-- Claim C2: for every string that is the base64 encoding of an arbitrary
byte payload (including payloads whose encoding carries `=` padding),
`write_munge_key` followed by `get_munge_key` returns the original string:
the bytes written are exactly the payload, and re-encoding them yields the
same base64 text. -/
theorem munge_key_roundtrip (payload : List Nat) (h : ∀ x ∈ payload, x < 256) :
    write_munge_key (b64encode payload) = some payload ∧
    get_munge_key payload = b64encode payload := by
  refine ⟨?_, rfl⟩
  show b64decodeChars (b64encodeChars payload).asString.toList = some payload
  show b64decodeChars (b64encodeChars payload) = some payload
  exact b64decodeChars_b64encodeChars payload h

/-- Witness for C2 at the two-byte payload `[0, 255]`, whose encoding
`"AP8="` carries `=` padding. -/
theorem munge_key_roundtrip_witness :
    write_munge_key (b64encode [0, 255]) = some [0, 255] ∧
    get_munge_key [0, 255] = b64encode [0, 255] :=
  munge_key_roundtrip [0, 255] (by decide)

/-! ## Python dict and the `write_slurm_config` context merge

`SlurmOpsManagerBase.write_slurm_config` (slurm_ops_base.py) builds a
`common_config` dict, replaces its `slurmctld_parameters` entry by the
deduplicated union with a caller-supplied comma-separated list (popping the
caller's entry) when that entry is present and truthy, and renders the
template with `{**context, **common_config}` — a Python merge in which the
*right* operand, `common_config`, wins on shared keys. -/

/-- Python `d.get(k)` / `d[k]` on an association list with unique keys. -/
def pyLookup (k : String) : List (String × String) → Option String
  | [] => none
  | (k2, v) :: rest => if k = k2 then some v else pyLookup k rest

/-- Python dict item assignment `d[k] = v` on an association list.  In
`write_slurm_config` the assigned key `slurmctld_parameters` is always
already present in `common_config`, so replacement suffices. -/
def dictSet : List (String × String) → String → String → List (String × String)
  | [], _, _ => []
  | (k2, w) :: rest, k, v =>
    if k2 = k then (k2, v) :: dictSet rest k v else (k2, w) :: dictSet rest k v

/-- Python `d.pop(k)`. -/
def dictPop (d : List (String × String)) (k : String) : List (String × String) :=
  d.filter fun p => p.1 ≠ k

/-- Python `s.split(",")` on the character list of a string. -/
def splitComma : List Char → List (List Char)
  | [] => [[]]
  | c :: rest =>
    match splitComma rest with
    | [] => [[]]
    | g :: gs => if c = ',' then [] :: g :: gs else (c :: g) :: gs

/-- Python `",".join(groups)`. -/
def joinComma : List (List Char) → List Char
  | [] => []
  | [g] => g
  | g :: gs => g ++ ',' :: joinComma gs

/-- Python truthiness of a string: non-empty. -/
def pyTruthy (s : String) : Bool := s.toList ≠ []

/-- `list(set(defaults.split(",") + caller.split(",")))` from
`write_slurm_config`: the duplicate-free union of the two comma-separated
lists (Python's set order is arbitrary; `dedup` fixes one order). -/
def mergedSlurmctldParams (defaults caller : String) : List (List Char) :=
  (splitComma defaults.toList ++ splitComma caller.toList).dedup

/-- The `common_config` dict after the `slurmctld_parameters`
preprocessing in `write_slurm_config` (slurm_ops_base.py, lines 551-562). -/
def preprocessCommon (common context : List (String × String)) : List (String × String) :=
  match pyLookup "slurmctld_parameters" context with
  | some v =>
    if pyTruthy v then
      dictSet common "slurmctld_parameters"
        (joinComma (mergedSlurmctldParams
          ((pyLookup "slurmctld_parameters" common).getD "") v)).asString
    else common
  | none => common

/-- The caller context after the same preprocessing (the caller's
`slurmctld_parameters` entry is popped when present and truthy). -/
def preprocessContext (context : List (String × String)) : List (String × String) :=
  match pyLookup "slurmctld_parameters" context with
  | some v => if pyTruthy v then dictPop context "slurmctld_parameters" else context
  | none => context

/-- The mapping handed to `rendered_template.render({**context,
**common_config})`: on every key, the (preprocessed) `common_config` value
wins over the (preprocessed) caller value. -/
def renderContext (common context : List (String × String)) : String → Option String :=
  fun k =>
    match pyLookup k (preprocessCommon common context) with
    | some v => some v
    | none => pyLookup k (preprocessContext context)

/-- The `common_config` dict built by
`SlurmOpsManagerBase.write_slurm_config` (slurm_ops_base.py, lines
520-537).  `mail_prog` and `slurm_plugin_dir` are the two entries supplied
by the concrete manager subclass; every other entry is the base-class
constant. -/
def common_config (mailProg pluginDir : String) : List (String × String) :=
  [("munge_socket", "/var/run/munge/munge.socket.2"),
   ("mail_prog", mailProg),
   ("slurm_state_dir", "/var/spool/slurmctld"),
   ("slurm_spool_dir", "/var/spool/slurmd"),
   ("slurm_plugin_dir", pluginDir),
   ("slurmdbd_log_file", "/var/log/slurm/slurmdbd.log"),
   ("slurmd_log_file", "/var/log/slurm/slurmd.log"),
   ("slurmctld_log_file", "/var/log/slurm/slurmctld.log"),
   ("slurmdbd_pid_file", "/var/run/slurmdbd.pid"),
   ("slurmd_pid_file", "/var/run/slurmd.pid"),
   ("slurmctld_pid_file", "/var/run/slurmctld.pid"),
   ("jwt_rsa_key_file", "/var/spool/slurmctld/jwt_hs256.key"),
   ("slurmctld_parameters", "enable_configless"),
   ("slurm_plugstack_conf", "/etc/slurm/plugstack.d/plugstack.conf"),
   ("slurm_user", "slurm"),
   ("slurmd_user", "root")]

/-- The Debian manager's `common_config` (`SlurmDebManager` supplies
`_mail_prog` and `_slurm_plugin_dir`). -/
def common_config_deb : List (String × String) :=
  common_config "/usr/bin/mail.mailutils" "/usr/lib/x86_64-linux-gnu/slurm-wlm/"

theorem pyLookup_dictSet_ne (d : List (String × String)) (k k2 v : String)
    (h : k ≠ k2) : pyLookup k (dictSet d k2 v) = pyLookup k d := by
  induction d with
  | nil => rfl
  | cons p rest ih =>
    obtain ⟨pk, pv⟩ := p
    by_cases hp : pk = k2
    · subst hp
      have hk : ¬ k = pk := h
      simp [dictSet, pyLookup, hk, ih]
    · by_cases hk : k = pk
      · simp [dictSet, pyLookup, hp, hk]
      · simp [dictSet, pyLookup, hp, hk, ih]

theorem pyLookup_dictSet_self (d : List (String × String)) (k v w : String)
    (h : pyLookup k d = some w) : pyLookup k (dictSet d k v) = some v := by
  induction d with
  | nil => simp [pyLookup] at h
  | cons p rest ih =>
    obtain ⟨pk, pv⟩ := p
    by_cases hk : k = pk
    · subst hk
      simp [dictSet, pyLookup]
    · simp only [pyLookup, if_neg hk] at h
      have hp : ¬ pk = k := fun e => hk e.symm
      simp [dictSet, pyLookup, hp, hk, ih h]

/-- Claim C1 (counterexample): with the Debian common defaults and a caller
context that overrides `mail_prog`, the value that reaches rendering is the
common-defaults one, not the caller's — `{**context, **common_config}` lets
the right operand win. -/
theorem render_value_not_caller :
    renderContext common_config_deb [("mail_prog", "/custom/mail")] "mail_prog"
      = some "/usr/bin/mail.mailutils" ∧
    ("/usr/bin/mail.mailutils" : String) ≠ "/custom/mail" := by
  constructor
  · rfl
  · decide

/-- Claim C1 (amended): for every key present in both the caller context
and the common-defaults mapping, the value that reaches template rendering
is the *common-defaults* one (the merge `{**context, **common_config}`
gives the defaults precedence); the one exception is
`slurmctld_parameters`, whose rendered value is the comma-joined
duplicate-free union of the default list and the caller's list. -/
theorem render_value_precedence (common context : List (String × String)) :
    (∀ k v, k ≠ "slurmctld_parameters" → pyLookup k common = some v →
      renderContext common context k = some v) ∧
    (∀ dv cv, pyLookup "slurmctld_parameters" common = some dv →
      pyLookup "slurmctld_parameters" context = some cv → pyTruthy cv →
      renderContext common context "slurmctld_parameters"
        = some (joinComma (mergedSlurmctldParams dv cv)).asString) := by
  constructor
  · intro k v hk hv
    unfold renderContext preprocessCommon
    cases hq : pyLookup "slurmctld_parameters" context with
    | none => simp [hv]
    | some cv =>
      by_cases ht : pyTruthy cv
      · simp only [ht, if_pos rfl, ite_true]
        rw [pyLookup_dictSet_ne _ _ _ _ hk, hv]
      · simp [ht, hv]
  · intro dv cv hdv hcv ht
    unfold renderContext preprocessCommon
    rw [hcv]
    simp only [ht, ite_true]
    rw [pyLookup_dictSet_self _ _ _ dv]
    · rw [hdv]
      rfl
    · exact hdv

/-- Witness for C1 (amended) at the Debian defaults: `mail_prog` renders to
the default `/usr/bin/mail.mailutils` although the caller supplied
`/custom/mail`, and `slurmctld_parameters` renders to the deduplicated
union. -/
theorem render_value_precedence_witness :
    renderContext common_config_deb
      [("mail_prog", "/custom/mail"),
       ("slurmctld_parameters", "enable_configless,multiple_slurmd")]
      "mail_prog" = some "/usr/bin/mail.mailutils" ∧
    renderContext common_config_deb
      [("mail_prog", "/custom/mail"),
       ("slurmctld_parameters", "enable_configless,multiple_slurmd")]
      "slurmctld_parameters"
      = some (joinComma (mergedSlurmctldParams "enable_configless"
          "enable_configless,multiple_slurmd")).asString :=
  ⟨(render_value_precedence common_config_deb
      [("mail_prog", "/custom/mail"),
       ("slurmctld_parameters", "enable_configless,multiple_slurmd")]).1
      "mail_prog" "/usr/bin/mail.mailutils" (by decide) (by decide),
   (render_value_precedence common_config_deb
      [("mail_prog", "/custom/mail"),
       ("slurmctld_parameters", "enable_configless,multiple_slurmd")]).2
      "enable_configless" "enable_configless,multiple_slurmd"
      (by decide) (by decide) (by decide)⟩

/-- Claim C3: with the common default `{enable_configless}` and the caller
override `enable_configless,multiple_slurmd`, the merged
`slurmctld_parameters` value that reaches rendering is the comma-join of a
duplicate-free list containing `enable_configless` and `multiple_slurmd`
exactly once each; in general the merged list is the duplicate-free union
of the two comma-separated lists. -/
theorem slurmctld_parameters_union :
    (renderContext common_config_deb
        [("slurmctld_parameters", "enable_configless,multiple_slurmd")]
        "slurmctld_parameters"
      = some (joinComma (mergedSlurmctldParams "enable_configless"
          "enable_configless,multiple_slurmd")).asString ∧
     (mergedSlurmctldParams "enable_configless"
        "enable_configless,multiple_slurmd").count "enable_configless".toList = 1 ∧
     (mergedSlurmctldParams "enable_configless"
        "enable_configless,multiple_slurmd").count "multiple_slurmd".toList = 1) ∧
    (∀ dv cv : String,
      (mergedSlurmctldParams dv cv).Nodup ∧
      ∀ x, x ∈ mergedSlurmctldParams dv cv ↔
        (x ∈ splitComma dv.toList ∨ x ∈ splitComma cv.toList)) := by
  refine ⟨⟨by rfl, by decide, by decide⟩, ?_⟩
  intro dv cv
  refine ⟨List.nodup_dedup _, ?_⟩
  intro x
  rw [mergedSlurmctldParams, List.mem_dedup, List.mem_append]

/-! ## Filesystem model and `write_slurm_config` proper

`write_slurm_config` checks `type(context) == dict` (raising `TypeError`),
then `source.exists()` (raising `FileNotFoundError` — the code has no
`MissingTemplateError` class), then unlinks the target and rewrites it, and
finally (slurm_ops_base.py only) chmods `slurmdbd.conf` to `0o600`.  The
older `SlurmOpsManagerBase.write_slurm_config` in slurm_ops.py has the same
check/unlink/write structure but performs no `slurmctld_parameters`
preprocessing and no chmod.  A file is a content/mode record; `Path.unlink`
followed by `Path.write_text` recreates the target with the process's
default creation mode (`0o666 & ~umask`), passed in as `createMode`. -/

structure FileRec where
  content : String
  mode : Nat
deriving DecidableEq

/-- Host filesystem: path to file record. -/
def FileSys : Type := String → Option FileRec

/-- The argument of `write_slurm_config`: a dict, or any non-dict value. -/
inductive ConfigArg
  | dict (entries : List (String × String))
  | nonDict

/-- Exceptions distinguished by the claims.  `missingTemplateError` is the
class named by the spec; it does not occur anywhere in the code. -/
inductive PyExc
  | typeError
  | fileNotFoundError
  | missingTemplateError
  | keyError
deriving DecidableEq

/-- Slurm components accepted by `SlurmOpsManagerBase.__init__`. -/
inductive Component
  | slurmd
  | slurmctld
  | slurmdbd
  | slurmrestd
deriving DecidableEq

/-- The template file name selected in `__init__`. -/
def templateName (c : Component) : String :=
  if c = .slurmdbd then "slurmdbd.conf.tmpl" else "slurm.conf.tmpl"

/-- `TEMPLATE_DIR / template_name` (the charm's template directory). -/
def templatePath (c : Component) : String :=
  "<TEMPLATE_DIR>/" ++ templateName c

/-- `_slurm_conf_path`: the rendered target, `/etc/slurm/slurm.conf` or
`/etc/slurm/slurmdbd.conf`. -/
def confPath (c : Component) : String :=
  if c = .slurmdbd then "/etc/slurm/slurmdbd.conf" else "/etc/slurm/slurm.conf"

/-- `SlurmOpsManagerBase.write_slurm_config` (slurm_ops_base.py, lines
517-582).  Returns the raised exception, if any, together with the
filesystem after the call; `renderFn` abstracts Jinja rendering of the
template text under the merged mapping.  (The trailing `chown` subprocess
call touches ownership only, which the model does not track.) -/
def writeSlurmConfig (comp : Component) (mailProg pluginDir : String)
    (renderFn : String → (String → Option String) → String)
    (createMode : Nat) (arg : ConfigArg) (fs : FileSys) :
    Option PyExc × FileSys :=
  match arg with
  | .nonDict => (some .typeError, fs)
  | .dict context =>
    match fs (templatePath comp) with
    | none => (some .fileNotFoundError, fs)
    | some tmpl =>
      let text := renderFn tmpl.content
        (renderContext (common_config mailProg pluginDir) context)
      let written : FileSys := fun p =>
        if p = confPath comp then
          some { content := text,
                 mode := if comp = .slurmdbd then 384 else createMode }
        else fs p
      (none, written)

/-- `SlurmOpsManagerBase.write_slurm_config` (slurm_ops.py, lines 271-312):
same checks and unlink/rewrite, but the subclass-supplied `common_config`
is merged with no `slurmctld_parameters` union and no chmod is ever
performed: the recreated target keeps the default creation mode. -/
def writeSlurmConfigOps (comp : Component) (common : List (String × String))
    (renderFn : String → (String → Option String) → String)
    (createMode : Nat) (arg : ConfigArg) (fs : FileSys) :
    Option PyExc × FileSys :=
  match arg with
  | .nonDict => (some .typeError, fs)
  | .dict context =>
    match fs (templatePath comp) with
    | none => (some .fileNotFoundError, fs)
    | some tmpl =>
      let merged : String → Option String := fun k =>
        match pyLookup k common with
        | some v => some v
        | none => pyLookup k context
      let text := renderFn tmpl.content merged
      let written : FileSys := fun p =>
        if p = confPath comp then some { content := text, mode := createMode }
        else fs p
      (none, written)

/-- The common config of `SlurmTarManager` in slurm_ops.py (the variant
whose `write_slurm_config` performs no chmod). -/
def common_config_ops_tar : List (String × String) :=
  [("munge_socket", "/var/run/munge/munge.socket.2"),
   ("mail_prog", "/usr/bin/mail"),
   ("slurm_state_dir", "/var/lib/slurmd"),
   ("slurm_spool_dir", "/var/spool/slurmd"),
   ("slurm_plugin_dir", "/usr/local/lib/slurm"),
   ("slurmdbd_log_file", "/var/log/slurm/slurmdbd.log"),
   ("slurmd_log_file", "/var/log/slurm/slurmd.log"),
   ("slurmctld_log_file", "/var/log/slurm/slurmctld.log"),
   ("slurmdbd_pid_file", "/srv/slurm/slurmdbd.pid"),
   ("slurmd_pid_file", "/srv/slurm/slurmd.pid"),
   ("slurmctld_pid_file", "/srv/slurm/slurmctld.pid"),
   ("slurm_plugstack_conf", "/etc/slurm/plugstack.d/plugstack.conf"),
   ("slurm_user", "slurm")]

/-- A filesystem holding both templates (mode `0o644`, content `TEXT`) and
a pre-existing target config. -/
def fsWithTemplates : FileSys := fun p =>
  if p = "<TEMPLATE_DIR>/slurm.conf.tmpl" then some { content := "TEXT", mode := 420 }
  else if p = "<TEMPLATE_DIR>/slurmdbd.conf.tmpl" then some { content := "TEXT", mode := 420 }
  else if p = "/etc/slurm/slurmdbd.conf" then some { content := "OLD", mode := 384 }
  else none

/-- The empty filesystem (no template present). -/
def emptyFS : FileSys := fun _ => none

/-- `SlurmInstallManager.write_config` (slurm_install_ops.py, lines
71-85).  Unlike `write_slurm_config`, its two checks only log: a non-dict
context yields the debug line "Incorrect type for config" and an empty
context, a missing source yields "Source does not exist"; the target
`/etc/slurm/slurm.conf` is then unlinked unconditionally, and it is the
final `source.read_text()` that raises `FileNotFoundError` when the source
is absent — after the unlink.  `fmtFn` abstracts
`source_text.format(**ctxt)`, and `hostname` stands for the
`self._hostname` attribute that this legacy class never assigns (an
unrelated defect of the dead revision, reached only on the dict branch, as
with the undefined attributes of the dead tar/snap revisions). -/
def write_config_install (comp : Component) (hostname : String)
    (fmtFn : String → List (String × String) → String)
    (createMode : Nat) (arg : ConfigArg) (fs : FileSys) :
    Option PyExc × FileSys :=
  let ctxt : List (String × String) :=
    match arg with
    | .nonDict => []
    | .dict context => context ++ [("hostname", hostname)]
  let unlinked : FileSys := fun p =>
    if p = "/etc/slurm/slurm.conf" then none else fs p
  match fs (templatePath comp) with
  | none => (some PyExc.fileNotFoundError, unlinked)
  | some src =>
    (none, fun p =>
      if p = "/etc/slurm/slurm.conf" then
        some { content := fmtFn src.content ctxt, mode := createMode }
      else fs p)

/-- Claim C6 (counterexample): with the template absent and a dict
context, `write_slurm_config` raises `FileNotFoundError`, not the
`MissingTemplateError` the spec names (no such class exists in the code);
and the cited `SlurmInstallManager.write_config`, given a non-dict context
with its source present, raises nothing at all — in particular never the
claimed `TypeError`: its type check only logs and the call proceeds. -/
theorem write_config_exception_cex :
    (writeSlurmConfig .slurmd "/usr/bin/mail.mailutils"
        "/usr/lib/x86_64-linux-gnu/slurm-wlm/" (fun t _ => t) 420
        (.dict []) emptyFS).1 = some PyExc.fileNotFoundError ∧
    some PyExc.fileNotFoundError ≠ some PyExc.missingTemplateError ∧
    (write_config_install .slurmd "host" (fun t _ => t) 420
        .nonDict fsWithTemplates).1 = none := by
  exact ⟨rfl, by decide, rfl⟩

/-- Claim C6 (amended): `SlurmOpsManagerBase.write_slurm_config` — both
the slurm_ops_base.py and the slurm_ops.py variant — raises
`FileNotFoundError` (message "The slurm config template cannot be
found."), not a `MissingTemplateError`, whenever the component's template
file is absent, and raises `TypeError` whenever the supplied context is
not a mapping; when the context is a mapping and the template exists,
neither is raised.  The cited `SlurmInstallManager.write_config` raises
neither check-exception itself: a non-mapping context is only logged
(never a `TypeError`), and a missing source raises `FileNotFoundError`
only at the final read, after the target has already been unlinked. -/
theorem write_config_error_contract
    (comp : Component) (mailProg pluginDir hostname : String)
    (common : List (String × String))
    (renderFn : String → (String → Option String) → String)
    (fmtFn : String → List (String × String) → String)
    (createMode : Nat) (ctx : List (String × String)) (fs : FileSys) :
    ((writeSlurmConfig comp mailProg pluginDir renderFn createMode
        .nonDict fs).1 = some PyExc.typeError ∧
     (fs (templatePath comp) = none →
       (writeSlurmConfig comp mailProg pluginDir renderFn createMode
           (.dict ctx) fs).1 = some PyExc.fileNotFoundError) ∧
     (∀ tmpl, fs (templatePath comp) = some tmpl →
       (writeSlurmConfig comp mailProg pluginDir renderFn createMode
           (.dict ctx) fs).1 = none)) ∧
    ((writeSlurmConfigOps comp common renderFn createMode
        .nonDict fs).1 = some PyExc.typeError ∧
     (fs (templatePath comp) = none →
       (writeSlurmConfigOps comp common renderFn createMode
           (.dict ctx) fs).1 = some PyExc.fileNotFoundError) ∧
     (∀ tmpl, fs (templatePath comp) = some tmpl →
       (writeSlurmConfigOps comp common renderFn createMode
           (.dict ctx) fs).1 = none)) ∧
    ((write_config_install comp hostname fmtFn createMode
        .nonDict fs).1 ≠ some PyExc.typeError ∧
     (fs (templatePath comp) = none →
       (write_config_install comp hostname fmtFn createMode
           .nonDict fs).1 = some PyExc.fileNotFoundError) ∧
     (∀ tmpl, fs (templatePath comp) = some tmpl →
       (write_config_install comp hostname fmtFn createMode
           .nonDict fs).1 = none)) := by
  refine ⟨⟨rfl, ?_, ?_⟩, ⟨rfl, ?_, ?_⟩, ⟨?_, ?_, ?_⟩⟩
  · intro h
    simp [writeSlurmConfig, h]
  · intro tmpl h
    simp [writeSlurmConfig, h]
  · intro h
    simp [writeSlurmConfigOps, h]
  · intro tmpl h
    simp [writeSlurmConfigOps, h]
  · cases hfs : fs (templatePath comp) <;> simp [write_config_install, hfs]
  · intro h
    simp [write_config_install, h]
  · intro tmpl h
    simp [write_config_install, h]

/-- Witness for C6 (amended) at component `slurmd`: a non-dict context
raises `TypeError` in `write_slurm_config` but nothing in
`SlurmInstallManager.write_config`; a missing template raises
`FileNotFoundError` in all three functions; a present template raises
nothing. -/
theorem write_config_error_contract_witness :
    (writeSlurmConfig .slurmd "/usr/bin/mail.mailutils"
        "/usr/lib/x86_64-linux-gnu/slurm-wlm/" (fun t _ => t) 420
        .nonDict emptyFS).1 = some PyExc.typeError ∧
    (writeSlurmConfig .slurmd "/usr/bin/mail.mailutils"
        "/usr/lib/x86_64-linux-gnu/slurm-wlm/" (fun t _ => t) 420
        (.dict []) emptyFS).1 = some PyExc.fileNotFoundError ∧
    (writeSlurmConfig .slurmd "/usr/bin/mail.mailutils"
        "/usr/lib/x86_64-linux-gnu/slurm-wlm/" (fun t _ => t) 420
        (.dict []) fsWithTemplates).1 = none ∧
    (writeSlurmConfigOps .slurmd common_config_ops_tar (fun t _ => t) 420
        (.dict []) emptyFS).1 = some PyExc.fileNotFoundError ∧
    (write_config_install .slurmd "host" (fun t _ => t) 420
        .nonDict emptyFS).1 = some PyExc.fileNotFoundError ∧
    (write_config_install .slurmd "host" (fun t _ => t) 420
        .nonDict fsWithTemplates).1 = none := by
  have he := write_config_error_contract .slurmd "/usr/bin/mail.mailutils"
    "/usr/lib/x86_64-linux-gnu/slurm-wlm/" "host" common_config_ops_tar
    (fun t _ => t) (fun t _ => t) 420 [] emptyFS
  have ht := write_config_error_contract .slurmd "/usr/bin/mail.mailutils"
    "/usr/lib/x86_64-linux-gnu/slurm-wlm/" "host" common_config_ops_tar
    (fun t _ => t) (fun t _ => t) 420 [] fsWithTemplates
  exact ⟨he.1.1, he.1.2.1 rfl,
         ht.1.2.2 { content := "TEXT", mode := 420 } rfl,
         he.2.1.2.1 rfl, he.2.2.2.1 rfl,
         ht.2.2.2.2 { content := "TEXT", mode := 420 } rfl⟩

/-- Claim C7 (counterexample): in the slurm_ops.py variant of
`write_slurm_config` — cited by the claim — no chmod is performed at all:
for component `slurmdbd`, with default creation mode `0o644` (420), the
rewritten `slurmdbd.conf` ends with mode 420, not `0o600` (384). -/
theorem slurmdbd_mode_not_0600_in_ops_variant :
    ((writeSlurmConfigOps .slurmdbd common_config_ops_tar (fun t _ => t) 420
        (.dict []) fsWithTemplates).2 "/etc/slurm/slurmdbd.conf").map
        FileRec.mode = some 420 ∧
    (420 : Nat) ≠ 384 := by
  exact ⟨rfl, by decide⟩

/-- Claim C7 (amended): in slurm_ops_base.py's `write_slurm_config`, after
a successful call for component `slurmdbd` the target `slurmdbd.conf` has
mode `0o600`; for every other component no chmod is issued, so the
recreated target carries the process's default creation mode (a
pre-existing mode is not preserved, since the target is unlinked and
rewritten); the slurm_ops.py variant issues no chmod for any component. -/
theorem write_slurm_config_mode (mailProg pluginDir : String)
    (renderFn : String → (String → Option String) → String)
    (createMode : Nat) (ctx : List (String × String)) (fs : FileSys)
    (tmpl : FileRec) :
    (fs (templatePath .slurmdbd) = some tmpl →
      ((writeSlurmConfig .slurmdbd mailProg pluginDir renderFn createMode
          (.dict ctx) fs).2 (confPath .slurmdbd)).map FileRec.mode = some 384) ∧
    (∀ comp, comp ≠ Component.slurmdbd → fs (templatePath comp) = some tmpl →
      ((writeSlurmConfig comp mailProg pluginDir renderFn createMode
          (.dict ctx) fs).2 (confPath comp)).map FileRec.mode = some createMode) ∧
    (∀ common comp, fs (templatePath comp) = some tmpl →
      ((writeSlurmConfigOps comp common renderFn createMode
          (.dict ctx) fs).2 (confPath comp)).map FileRec.mode = some createMode) := by
  refine ⟨?_, ?_, ?_⟩
  · intro h
    simp [writeSlurmConfig, h]
  · intro comp hne h
    simp [writeSlurmConfig, h, hne]
  · intro common comp h
    simp [writeSlurmConfigOps, h]

/-- Witness for C7 (amended): concrete runs for `slurmdbd` (mode becomes
`0o600`), for `slurmd` in the base variant and for `slurmdbd` in the
slurm_ops.py variant (mode stays the default creation mode 420). -/
theorem write_slurm_config_mode_witness :
    ((writeSlurmConfig .slurmdbd "/usr/bin/mail.mailutils"
        "/usr/lib/x86_64-linux-gnu/slurm-wlm/" (fun t _ => t) 420
        (.dict []) fsWithTemplates).2 (confPath .slurmdbd)).map
        FileRec.mode = some 384 ∧
    ((writeSlurmConfig .slurmd "/usr/bin/mail.mailutils"
        "/usr/lib/x86_64-linux-gnu/slurm-wlm/" (fun t _ => t) 420
        (.dict []) fsWithTemplates).2 (confPath .slurmd)).map
        FileRec.mode = some 420 ∧
    ((writeSlurmConfigOps .slurmdbd common_config_ops_tar (fun t _ => t) 420
        (.dict []) fsWithTemplates).2 (confPath .slurmdbd)).map
        FileRec.mode = some 420 :=
  ⟨(write_slurm_config_mode "/usr/bin/mail.mailutils"
      "/usr/lib/x86_64-linux-gnu/slurm-wlm/" (fun t _ => t) 420 []
      fsWithTemplates { content := "TEXT", mode := 420 }).1 rfl,
   (write_slurm_config_mode "/usr/bin/mail.mailutils"
      "/usr/lib/x86_64-linux-gnu/slurm-wlm/" (fun t _ => t) 420 []
      fsWithTemplates { content := "TEXT", mode := 420 }).2.1 .slurmd
      (by decide) rfl,
   (write_slurm_config_mode "/usr/bin/mail.mailutils"
      "/usr/lib/x86_64-linux-gnu/slurm-wlm/" (fun t _ => t) 420 []
      fsWithTemplates { content := "TEXT", mode := 420 }).2.2
      common_config_ops_tar .slurmdbd rfl⟩

/-- Claim C10: `write_slurm_config` is atomic on error — whenever it
raises (`TypeError` for a non-mapping context or `FileNotFoundError` for a
missing template), the filesystem, and in particular the existing target
config file, is left unchanged: both checks precede the unlink and the
write.  Holds for the slurm_ops_base.py and the slurm_ops.py variants. -/
theorem write_slurm_config_error_atomic
    (comp : Component) (mailProg pluginDir : String)
    (common : List (String × String))
    (renderFn : String → (String → Option String) → String)
    (createMode : Nat) (arg : ConfigArg) (fs : FileSys) :
    ((writeSlurmConfig comp mailProg pluginDir renderFn createMode
        arg fs).1.isSome →
      (writeSlurmConfig comp mailProg pluginDir renderFn createMode
        arg fs).2 (confPath comp) = fs (confPath comp)) ∧
    ((writeSlurmConfigOps comp common renderFn createMode arg fs).1.isSome →
      (writeSlurmConfigOps comp common renderFn createMode arg fs).2
        (confPath comp) = fs (confPath comp)) := by
  constructor
  · intro h
    cases arg with
    | nonDict => rfl
    | dict ctx =>
      cases hfs : fs (templatePath comp) with
      | none => simp [writeSlurmConfig, hfs]
      | some tmpl => simp [writeSlurmConfig, hfs] at h
  · intro h
    cases arg with
    | nonDict => rfl
    | dict ctx =>
      cases hfs : fs (templatePath comp) with
      | none => simp [writeSlurmConfigOps, hfs]
      | some tmpl => simp [writeSlurmConfigOps, hfs] at h

/-- Witness for C10: a raising run (non-dict context) leaves the
pre-existing `/etc/slurm/slurmdbd.conf` record untouched in both
variants. -/
theorem write_slurm_config_error_atomic_witness :
    (writeSlurmConfig .slurmdbd "/usr/bin/mail.mailutils"
        "/usr/lib/x86_64-linux-gnu/slurm-wlm/" (fun t _ => t) 420
        .nonDict fsWithTemplates).2 (confPath .slurmdbd)
      = fsWithTemplates (confPath .slurmdbd) ∧
    (writeSlurmConfigOps .slurmdbd common_config_ops_tar (fun t _ => t) 420
        .nonDict fsWithTemplates).2 (confPath .slurmdbd)
      = fsWithTemplates (confPath .slurmdbd) :=
  ⟨(write_slurm_config_error_atomic .slurmdbd "/usr/bin/mail.mailutils"
      "/usr/lib/x86_64-linux-gnu/slurm-wlm/" common_config_ops_tar
      (fun t _ => t) 420 .nonDict fsWithTemplates).1 rfl,
   (write_slurm_config_error_atomic .slurmdbd "/usr/bin/mail.mailutils"
      "/usr/lib/x86_64-linux-gnu/slurm-wlm/" common_config_ops_tar
      (fun t _ => t) 420 .nonDict fsWithTemplates).2 rfl⟩

/-! ## The systemctl wrappers

`SlurmOpsManagerBase.slurm_systemctl` (slurm_ops_base.py, lines 123-146)
checks its operation against `["enable", "start", "stop", "restart"]` and
raises before calling `subprocess.check_output`;
`SlurmOpsManagerBase._slurm_systemctl` (slurm_ops.py, lines 175-197) checks
against `["enable", "start", "stop", "restart", "is-active"]` before
`subprocess.call`.  `daemon-reload` is served by a separate static wrapper
and is accepted by neither.  Each wrapper is modelled as the list of
subprocess commands it spawns together with the message of the exception it
raises, if any; a raise always comes with an empty spawn trace. -/

def supported_systemctl_cmds : List String :=
  ["enable", "start", "stop", "restart"]

def supported_systemctl_cmds_ops : List String :=
  ["enable", "start", "stop", "restart", "is-active"]

/-- `slurm_systemctl(operation)` from slurm_ops_base.py against the unit
`service`. -/
def slurm_systemctl (operation service : String) :
    List (List String) × Option String :=
  if operation ∈ supported_systemctl_cmds then
    ([["systemctl", operation, service]], none)
  else
    ([], some ("## Unsupported systemctl command: " ++ operation))

/-- `_slurm_systemctl(operation)` from slurm_ops.py against the unit
`service`. -/
def slurm_systemctl_v2 (operation service : String) :
    List (List String) × Option String :=
  if operation ∈ supported_systemctl_cmds_ops then
    ([["systemctl", operation, service]], none)
  else
    ([], some ("Unsupported systemctl command: " ++ operation))

/-- Claim C4 (counterexample): the claim's allow-list includes `is-active`
and `daemon-reload`, yet `slurm_systemctl` raises on both and
`_slurm_systemctl` raises on `daemon-reload` — each with an empty spawn
trace. -/
theorem systemctl_allowlist_cex :
    slurm_systemctl "daemon-reload" "slurmd.service"
      = ([], some "## Unsupported systemctl command: daemon-reload") ∧
    slurm_systemctl "is-active" "slurmd.service"
      = ([], some "## Unsupported systemctl command: is-active") ∧
    slurm_systemctl_v2 "daemon-reload" "slurmd"
      = ([], some "Unsupported systemctl command: daemon-reload") := by
  decide

/-- Claim C4 (amended): `slurm_systemctl` raises — with no subprocess
spawned — exactly on operations outside `{enable, start, stop, restart}`,
and `_slurm_systemctl` exactly on operations outside
`{enable, start, stop, restart, is-active}`; an allow-listed operation
spawns exactly the one corresponding `systemctl` command and the check
raises nothing (`daemon-reload` is handled by a separate wrapper and
rejected by both). -/
theorem systemctl_allowlist (op svc : String) :
    (op ∉ supported_systemctl_cmds →
      slurm_systemctl op svc
        = ([], some ("## Unsupported systemctl command: " ++ op))) ∧
    (op ∈ supported_systemctl_cmds →
      slurm_systemctl op svc = ([["systemctl", op, svc]], none)) ∧
    (op ∉ supported_systemctl_cmds_ops →
      slurm_systemctl_v2 op svc
        = ([], some ("Unsupported systemctl command: " ++ op))) ∧
    (op ∈ supported_systemctl_cmds_ops →
      slurm_systemctl_v2 op svc = ([["systemctl", op, svc]], none)) := by
  refine ⟨?_, ?_, ?_, ?_⟩ <;> intro h <;>
    simp [slurm_systemctl, slurm_systemctl_v2, h]

/-- Witness for C4 (amended): `is-active` raises in the slurm_ops_base.py
wrapper but spawns in the slurm_ops.py wrapper; `start` spawns in both. -/
theorem systemctl_allowlist_witness :
    slurm_systemctl "is-active" "slurmd.service"
      = ([], some ("## Unsupported systemctl command: " ++ "is-active")) ∧
    slurm_systemctl_v2 "is-active" "slurmd.service"
      = ([["systemctl", "is-active", "slurmd.service"]], none) ∧
    slurm_systemctl "start" "slurmd.service"
      = ([["systemctl", "start", "slurmd.service"]], none) :=
  ⟨(systemctl_allowlist "is-active" "slurmd.service").1 (by decide),
   (systemctl_allowlist "is-active" "slurmd.service").2.2.2 (by decide),
   (systemctl_allowlist "start" "slurmd.service").2.1 (by decide)⟩

/-! ## `render_config_and_restart`

Three revisions are embedded, each on its successful-write path, as the
list of observable events it performs plus whether it raised the fatal
"not starting" exception.  The `is_active` reads are parametrized by the
boolean each read returns. -/

inductive SEv
  | writeConfig
  | writeMungeKey
  | restartMunge
  | ctl (op : String)
  | checkActive (result : Bool)
deriving DecidableEq

/-- `SlurmTarManager.render_config_and_restart` (slurm_tar_ops.py, lines
73-87): write config, write munge key and restart munge, then restart the
component if active else start it, then check once more and raise if still
not active. -/
def render_config_and_restart_tar (active1 active2 : Bool) : List SEv × Bool :=
  ([SEv.writeConfig, SEv.writeMungeKey, SEv.restartMunge,
    SEv.checkActive active1, SEv.ctl (if active1 then "restart" else "start"),
    SEv.checkActive active2], !active2)

/-- `SlurmSnapManager.render_config_and_restart` (slurm_snap_ops.py, lines
21-35): identical control flow to the tar manager. -/
def render_config_and_restart_snap (active1 active2 : Bool) : List SEv × Bool :=
  ([SEv.writeConfig, SEv.writeMungeKey, SEv.restartMunge,
    SEv.checkActive active1, SEv.ctl (if active1 then "restart" else "start"),
    SEv.checkActive active2], !active2)

/-- `SlurmOpsManager.render_config_and_restart` (slurm_ops.py, lines
72-86): write config, unconditionally restart the component, then write the
munge key and restart munge, then check activity once and raise if not
active. -/
def render_config_and_restart_ops (active : Bool) : List SEv × Bool :=
  ([SEv.writeConfig, SEv.ctl "restart", SEv.writeMungeKey, SEv.restartMunge,
    SEv.checkActive active], !active)

/-- The systemctl operations issued on the slurm unit within a trace. -/
def ctlOps (tr : List SEv) : List String :=
  tr.filterMap fun e => match e with | SEv.ctl op => some op | _ => none

/-- The number of activity reads within a trace. -/
def activityChecks (tr : List SEv) : Nat :=
  tr.countP fun e => match e with | SEv.checkActive _ => true | _ => false

/-- Claim C5 (counterexample): in the `SlurmOpsManager` revision
(slurm_ops.py) with the component not active, the only systemctl operation
issued is `restart`, never the `start` that the claim mandates for an
inactive component, and the activity is checked only once. -/
theorem render_restart_ops_always_restart :
    SEv.ctl "start" ∉ (render_config_and_restart_ops false).1 ∧
    SEv.ctl "restart" ∈ (render_config_and_restart_ops false).1 ∧
    activityChecks (render_config_and_restart_ops false).1 = 1 ∧
    (render_config_and_restart_ops false).2 = true := by
  decide

/-- Claim C5 (amended): in the tar and snap managers,
`render_config_and_restart` issues — after the config and munge key are
written — exactly one systemctl operation on the component, `restart` if
the component was read as active and `start` otherwise, reads the activity
exactly twice in total, and raises the fatal exception iff the second read
is not active; the `SlurmOpsManager` revision instead issues exactly one
unconditional `restart` (before the munge key write), reads the activity
once, and raises iff that read is not active.  No revision retries or
backs off. -/
theorem render_restart_contract (a1 a2 a : Bool) :
    (ctlOps (render_config_and_restart_tar a1 a2).1
        = [if a1 then "restart" else "start"] ∧
     activityChecks (render_config_and_restart_tar a1 a2).1 = 2 ∧
     (render_config_and_restart_tar a1 a2).2 = !a2) ∧
    (ctlOps (render_config_and_restart_snap a1 a2).1
        = [if a1 then "restart" else "start"] ∧
     activityChecks (render_config_and_restart_snap a1 a2).1 = 2 ∧
     (render_config_and_restart_snap a1 a2).2 = !a2) ∧
    (ctlOps (render_config_and_restart_ops a).1 = ["restart"] ∧
     activityChecks (render_config_and_restart_ops a).1 = 1 ∧
     (render_config_and_restart_ops a).2 = !a) := by
  cases a1 <;> cases a2 <;> cases a <;> decide

/-! ## The tar provisioning wait loop

`_provision_slurm_resource` (slurm_ops.py lines 539-554 and
slurm_ops_managers.py lines 214-229) ends its extraction step with
`while not Path(".../sbin/slurmd").exists(): sleep(1)` — no iteration
bound and no timeout.  The loop is embedded fuel-indexed: `existsAt k`
tells whether the file exists when the loop tests it for the `k`-th time,
and `provisionWait` returns the iteration at which the loop exited, or
`none` if it is still running after `fuel` tests. -/

def slurmdWaitLoop (existsAt : Nat → Bool) : Nat → Nat → Option Nat
  | 0, _ => none
  | fuel + 1, k => if existsAt k then some k else slurmdWaitLoop existsAt fuel (k + 1)

/-- The wait loop of `_provision_slurm_resource`, started at its first
test. -/
def provisionWait (existsAt : Nat → Bool) (fuel : Nat) : Option Nat :=
  slurmdWaitLoop existsAt fuel 0

theorem slurmdWaitLoop_none (existsAt : Nat → Bool)
    (h : ∀ n, existsAt n = false) :
    ∀ fuel k, slurmdWaitLoop existsAt fuel k = none := by
  intro fuel
  induction fuel with
  | zero => intro k; rfl
  | succ n ih =>
    intro k
    simp [slurmdWaitLoop, h k, ih (k + 1)]

/-- Claim C8: the wait loop of `_provision_slurm_resource` has no
iteration bound and no timeout — in every environment in which
`/tmp/slurm-resource/sbin/slurmd` never comes to exist, the loop is still
running after any number of tests, so the function does not terminate. -/
theorem provision_wait_unbounded (existsAt : Nat → Bool)
    (h : ∀ n, existsAt n = false) :
    ∀ fuel, provisionWait existsAt fuel = none := by
  intro fuel
  exact slurmdWaitLoop_none existsAt h fuel 0

/-- Witness for C8: with the file never appearing, seven tests in, the
loop is still running. -/
theorem provision_wait_unbounded_witness :
    provisionWait (fun _ => false) 7 = none :=
  provision_wait_unbounded (fun _ => false) (fun _ => rfl) 7

/-! ## `slurm_is_active`

`SlurmOpsManagerBase.slurm_is_active` (slurm_ops_base.py, lines 103-115)
runs `systemctl is-active <unit>` through `subprocess.check_output`, which
either returns the command's stdout (exit code 0) or raises
`CalledProcessError` (nonzero exit) — the failure mode of the query, which
the property catches.  On output it returns
`'active' == r.decode().strip().lower()`; on `CalledProcessError` it logs
and returns `False`. -/

inductive SubprocResult
  | output (stdout : String)
  | calledProcessError
deriving DecidableEq

/-- Python `s.lstrip()` on characters. -/
def dropLeadingWS : List Char → List Char
  | [] => []
  | c :: rest => if c.isWhitespace then dropLeadingWS rest else c :: rest

/-- Python `s.strip()`. -/
def pyStrip (s : List Char) : List Char :=
  (dropLeadingWS (dropLeadingWS s).reverse).reverse

/-- Python `s.lower()`. -/
def pyLower (s : List Char) : List Char := s.map Char.toLower

/-- `slurm_is_active` as a function of the `check_output` result. -/
def slurm_is_active (r : SubprocResult) : Bool :=
  match r with
  | .output s => "active" == (pyLower (pyStrip s.toList)).asString
  | .calledProcessError => false

/-- Claim C9: `slurm_is_active` is total — for every outcome of the
underlying `systemctl is-active` query it returns a boolean; when the
query fails (`CalledProcessError`) it returns `False` rather than raising,
and it returns `True` exactly when the query's output, stripped and
lowercased, is the string `active`. -/
theorem slurm_is_active_total :
    (∀ r, slurm_is_active r = true ∨ slurm_is_active r = false) ∧
    slurm_is_active SubprocResult.calledProcessError = false ∧
    (∀ s, slurm_is_active (SubprocResult.output s) = true ↔
      (pyLower (pyStrip s.toList)).asString = "active") := by
  refine ⟨fun r => ?_, rfl, fun s => ?_⟩
  · cases hr : slurm_is_active r
    · exact Or.inr rfl
    · exact Or.inl rfl
  · show ("active" == (pyLower (pyStrip s.toList)).asString) = true ↔ _
    rw [beq_iff_eq]
    exact eq_comm
